import Mathlib

/-!
Verification of the capability-probed transcription runner of the Pdf2Md
audio-transcription scripts.

The embedding models, from the source:
* `src/validate_faster_whisper.py` — `test_faster_whisper`: the ordered
  device-config fallback loop (`tryConfigs` below);
* `src/src/gpu_transcribe.py` — `detect_gpu_capability`, `load_model`
  (recursive cuda→cpu construction fallback), `transcribe_audio` (segment
  collection, aggregate text, real-time factor), and `main` (input-file
  existence check, then load, then transcribe);
* `src/docs/testing/incremental_gpu_tester.py` — `test_single_file` and the
  phase-2 cpu fallback after a failed gpu attempt;
* `src/tests/gpu_acceleration/benchmark_gpu_vs_cpu.py` — the compute-type
  selection expression of `test_model_performance` and its call sites;
* `src/src/simple_audio_transcription.py` — `transcribe_audio_simple`.

The external library (model construction, the transcription call, GPU
detection, the wall clock) is abstracted as an environment `Env` of outcome
flags; the Python scripts only branch on whether those calls raise.
Strings are `List Char`; times and durations are `ℚ`.
-/

set_option autoImplicit false

namespace Pdf2Md

/-- A compute device, as named in the scripts (`'cuda'` / `'cpu'`). -/
inductive Device where
  | cuda
  | cpu
  deriving DecidableEq, Repr

/-- A `compute_type` string passed to `WhisperModel` (`"float16"` / `"int8"`). -/
inductive ComputeType where
  | float16
  | int8
  deriving DecidableEq, Repr

/-- The fixed device-class → compute-type table: every construction site in the
repository passes `float16` for cuda and `int8` for cpu
(`gpu_transcribe.load_model` lines 97–109, `validate_faster_whisper` line 79–82,
`incremental_gpu_tester.test_single_file` line 56). -/
def computeTypeFor : Device → ComputeType
  | .cuda => .float16
  | .cpu => .int8

/-- Abstraction of the external library and hardware: whether
`WhisperModel(...)` construction succeeds on a device, whether
`model.transcribe(...)` succeeds on a device, and whether
`detect_gpu_capability` reports a usable GPU
(`torch.cuda.is_available()` with a device present). -/
structure Env where
  constructOk : Device → Bool
  transcribeOk : Device → Bool
  hasGpu : Bool

/-- One recorded device attempt of the fallback trail (spec `DeviceAttempt`):
the device tried, the compute type used, and the outcome
(`success := true`, `failure := false`). -/
structure DeviceAttempt where
  device : Device
  compute : ComputeType
  success : Bool
  deriving DecidableEq, Repr

/-- `validate_faster_whisper.test_faster_whisper`, lines 84–108: iterate over
the ordered `device_configs`, try to construct the model on each; on an
exception continue with the next config; return the first device that
succeeded, or `none` after the loop (the `return False, "none", 0` path).
The returned list is the trail of attempts, in order. -/
def tryConfigs (env : Env) : List Device → List DeviceAttempt × Option Device
  | [] => ([], none)
  | d :: rest =>
    if env.constructOk d then
      ([⟨d, computeTypeFor d, true⟩], some d)
    else
      let r := tryConfigs env rest
      (⟨d, computeTypeFor d, false⟩ :: r.1, r.2)

/-- The ordered `device_configs` list of `test_faster_whisper`, lines 79–82:
cuda with float16 first, then cpu with int8. -/
def device_configs : List Device := [.cuda, .cpu]

/-- `test_faster_whisper`'s model-initialization loop applied to its fixed
config order. -/
def test_faster_whisper (env : Env) : List DeviceAttempt × Option Device :=
  tryConfigs env device_configs

/-- The requested `--device` argument of `gpu_transcribe` (`auto`/`cpu`/`cuda`). -/
inductive ReqDevice where
  | auto
  | cuda
  | cpu
  deriving DecidableEq, Repr

/-- `gpu_transcribe.load_model`, lines 81–90: resolve the requested device to
the actual device. `auto` picks cuda when a GPU was detected, else cpu; an
explicit cuda request is forced to cpu when no GPU is available. -/
def actualDevice (env : Env) (req : ReqDevice) : Device :=
  match req with
  | .auto => if env.hasGpu then .cuda else .cpu
  | .cuda => if env.hasGpu then .cuda else .cpu
  | .cpu => .cpu

/-- One construction attempt of `gpu_transcribe.load_model` on a device with
no further fallback: the try body at lines 92–120 together with the
re-raise branch at line 130 (`raise` when the failed device was not cuda). -/
def loadSingle (env : Env) (d : Device) : List DeviceAttempt × Except Unit Device :=
  if env.constructOk d then
    ([⟨d, computeTypeFor d, true⟩], .ok d)
  else
    ([⟨d, computeTypeFor d, false⟩], .error ())

/-- The construction part of `gpu_transcribe.load_model`, lines 92–130, as a
function of the already-resolved actual device: try `WhisperModel` with the
device-appropriate compute type; on an exception, if the device was cuda,
fall back with the recursive call `load_model(model_size, 'cpu')`; a cpu
construction failure is re-raised (`.error ()`). The recursive call resolves
its device to cpu and cannot fall back further, so it is exactly the
single-attempt cpu case and the recursion is inlined as `loadSingle env .cpu`.
Returns the attempt trail and the device of the loaded model. -/
def loadFrom (env : Env) : Device → List DeviceAttempt × Except Unit Device
  | .cuda =>
    if env.constructOk .cuda then
      ([⟨.cuda, computeTypeFor .cuda, true⟩], .ok .cuda)
    else
      let r := loadSingle env .cpu
      (⟨.cuda, computeTypeFor .cuda, false⟩ :: r.1, r.2)
  | .cpu => loadSingle env .cpu

/-- `gpu_transcribe.load_model`: resolve the device, then construct with
fallback. -/
def load_model (env : Env) (req : ReqDevice) : List DeviceAttempt × Except Unit Device :=
  loadFrom env (actualDevice env req)

/-- Python's `str.strip()` on a string as a character list: remove whitespace
characters from both ends (here: from the right, then from the left; the two
orders agree). -/
def pyStrip (s : List Char) : List Char :=
  (s.reverse.dropWhile Char.isWhitespace).reverse.dropWhile Char.isWhitespace

/-- A segment as emitted by the engine's `model.transcribe` stream:
`segment.start`, `segment.end`, `segment.text`. -/
structure Seg where
  start : ℚ
  stop : ℚ
  text : List Char
  deriving DecidableEq, Repr

/-- The `info` object returned by `model.transcribe`: detected language, its
probability, and the audio duration in seconds. -/
structure TransInfo where
  language : List Char
  language_probability : ℚ
  duration : ℚ
  deriving DecidableEq, Repr

/-- A collected segment record of `transcribe_audio`, lines 165–169:
`{'start': segment.start, 'end': segment.end, 'text': segment.text.strip()}`. -/
structure SegOut where
  start : ℚ
  stop : ℚ
  text : List Char
  deriving DecidableEq, Repr

/-- The result dictionary built by `transcribe_audio`, lines 179–188
(the fields the claims are about). -/
structure TranscribeResult where
  text : List Char
  segments : List SegOut
  language : List Char
  language_probability : ℚ
  duration : ℚ
  processing_time : ℚ
  real_time_factor : ℚ
  deriving DecidableEq, Repr

/-- The segment-collection loop of `transcribe_audio`, lines 164–170:
append one stripped record per emitted segment, in emission order. -/
def collectSegments (segs : List Seg) : List SegOut :=
  segs.map fun s => ⟨s.start, s.stop, pyStrip s.text⟩

/-- The `full_text` accumulation of `transcribe_audio`, lines 162–171:
`full_text += segment.text.strip() + " "` over the emitted segments. -/
def fullTextLoop (segs : List Seg) : List Char :=
  segs.foldl (fun acc s => acc ++ pyStrip s.text ++ [' ']) []

/-- The `real_time_factor` expression of `transcribe_audio`, line 177:
`audio_duration / processing_time if processing_time > 0 else 0`. -/
def realTimeFactor (duration processing_time : ℚ) : ℚ :=
  if processing_time > 0 then duration / processing_time else 0

/-- `gpu_transcribe.transcribe_audio`, success path, lines 160–191: collect
the segments, strip the accumulated text (`full_text.strip()`), and compute
the real-time factor. The emitted segments, the info object and the measured
elapsed time are inputs from the environment. -/
def transcribe_audio (segs : List Seg) (info : TransInfo) (processing_time : ℚ) :
    TranscribeResult :=
  { text := pyStrip (fullTextLoop segs)
    segments := collectSegments segs
    language := info.language
    language_probability := info.language_probability
    duration := info.duration
    processing_time := processing_time
    real_time_factor := realTimeFactor info.duration processing_time }

/-- What the filesystem reports about the audio path: `os.path.exists`, plus
readability and size (which the scripts never consult — kept to state the
claims about them). -/
structure FileSys where
  pathExists : Bool
  readable : Bool
  size : Nat
  deriving DecidableEq, Repr

/-- The failure outcomes of a `gpu_transcribe.main` run: the file-not-found
exit at line 215–217, a re-raised construction failure from `load_model`, and
a re-raised transcription failure from `transcribe_audio` (both reach the
`except` at lines 259–261 and exit). -/
inductive RunError where
  | inputNotFound
  | loadFailed
  | transcribeFailed
  deriving DecidableEq, Repr

/-- `gpu_transcribe.main`, lines 213–261: check `os.path.exists` on the file
path (exiting before any model work when it fails), then `load_model`, then
`transcribe_audio` on the loaded model. A transcription exception propagates
to the outer `except` and aborts the run; no further device is tried there.
Returns the device-attempt trail and the outcome. -/
def gpuTranscribeMain (fs : FileSys) (env : Env) (req : ReqDevice)
    (segs : List Seg) (info : TransInfo) (processing_time : ℚ) :
    List DeviceAttempt × Except RunError (TranscribeResult × Device) :=
  if fs.pathExists = false then
    ([], .error .inputNotFound)
  else
    match load_model env req with
    | (trail, .error _) => (trail, .error .loadFailed)
    | (trail, .ok d) =>
      if env.transcribeOk d then
        (trail, .ok (transcribe_audio segs info processing_time, d))
      else
        (trail, .error .transcribeFailed)

/-- `incremental_gpu_tester.test_single_file`, lines 50–105: return an error
record when the file is missing, when model construction raises, or when the
transcription raises; otherwise a success record for the device used. -/
def test_single_file (fs : FileSys) (env : Env) (device : Device) :
    Except (List Char) Device :=
  if fs.pathExists = false then
    .error "File not found".toList
  else if env.constructOk device = false then
    .error "model load error".toList
  else if env.transcribeOk device = false then
    .error "transcribe error".toList
  else
    .ok device

/-- The per-file step of `incremental_gpu_tester.run_phase_2_gpu_comparison`,
lines 190–229: run `test_single_file` on cuda; when it did not succeed, run a
cpu fallback attempt with `test_single_file` and keep its outcome. The second
component is `some` exactly when the cpu fallback was attempted. -/
def phase2Step (fs : FileSys) (env : Env) :
    Except (List Char) Device × Option (Except (List Char) Device) :=
  let gpuResult := test_single_file fs env .cuda
  match gpuResult with
  | .ok _ => (gpuResult, none)
  | .error _ => (gpuResult, some (test_single_file fs env .cpu))

/-- Abstraction of the external dependencies of
`simple_audio_transcription.transcribe_audio_simple`: whether `import whisper`
succeeds, whether the cache-directory inspection raises, the `.pt` files found
in the cache, and whether `whisper.load_model` + `model.transcribe` succeed. -/
structure SimpleEnv where
  whisperImportOk : Bool
  cacheScanOk : Bool
  cacheFiles : List (List Char)
  modelRunOk : Bool
  transcribedText : List Char
  detectedLanguage : List Char

/-- The output of `transcribe_audio_simple` for an existing file: either the
dummy offline-mode markdown of `create_dummy_transcription` or the success
markdown carrying the stripped transcription text. -/
inductive SimpleResult where
  | dummy
  | transcript (text : List Char)
  deriving DecidableEq, Repr

/-- Python's `sub in s` membership test on character lists: some suffix of `s`
starts with `sub`. -/
def hasSubstring (sub : List Char) : List Char → Bool
  | [] => sub.isEmpty
  | c :: rest => sub.isPrefixOf (c :: rest) || hasSubstring sub rest

/-- The model-name choice of `transcribe_audio_simple`, lines 49–61: among the
cached `.pt` files pick `tiny` when one mentions tiny else `base`; with no
cached model, `tiny`. -/
def chooseModelName (cacheFiles : List (List Char)) : List Char :=
  let available := cacheFiles.filter fun f => ".pt".toList.isSuffixOf f
  if available ≠ [] then
    if available.any fun m => hasSubstring "tiny".toList m then "tiny".toList
    else "base".toList
  else
    "tiny".toList

/-- `simple_audio_transcription.transcribe_audio_simple`, lines 36–94: raise
`FileNotFoundError` when the path does not exist; thereafter every failure —
a missing `whisper` import, an exception while scanning the model cache, or a
model loading / transcription exception — is caught and answered with the
dummy transcription; only a fully successful run returns the transcript
markdown (with the text stripped, line 67). -/
def transcribe_audio_simple (fs : FileSys) (e : SimpleEnv) :
    Except Unit SimpleResult :=
  if fs.pathExists = false then
    .error ()
  else if e.whisperImportOk = false then
    .ok .dummy
  else if e.cacheScanOk = false then
    .ok .dummy
  else if e.modelRunOk = false then
    .ok .dummy
  else
    .ok (.transcript (pyStrip e.transcribedText))

/-- The compute-type expression of
`benchmark_gpu_vs_cpu.test_model_performance`, line 115:
`compute_type if device == "cuda" else "int8"`, where `compute_type` is the
caller-supplied argument. -/
def benchComputeType (device : Device) (compute_type : ComputeType) : ComputeType :=
  if device = .cuda then compute_type else .int8

/-- Spec-side definition, following the claim's words "joined in segment order
by single spaces": the plain single-space join of a list of texts. It is
compared below with the code's aggregate-text computation. -/
def joinSpaces : List (List Char) → List Char
  | [] => []
  | [t] => t
  | t :: ts => t ++ ' ' :: joinSpaces ts

/-- An environment in which construction fails on every device. -/
def envAllFail : Env := ⟨fun _ => false, fun _ => true, true⟩

/-- An environment in which cuda construction fails and cpu succeeds. -/
def envCudaFail : Env :=
  ⟨fun d => match d with | .cuda => false | .cpu => true, fun _ => true, true⟩

/-- An environment in which everything succeeds and a GPU is present. -/
def envAllOk : Env := ⟨fun _ => true, fun _ => true, true⟩

/-- An environment in which construction always succeeds but the transcription
call fails on cuda. -/
def envCudaTransFail : Env :=
  ⟨fun _ => true, fun d => match d with | .cuda => false | .cpu => true, true⟩

/-- An environment in which everything succeeds but no GPU is detected. -/
def envNoGpu : Env := ⟨fun _ => true, fun _ => true, false⟩

/-- A filesystem view of an existing, readable, non-empty audio file. -/
def fsOk : FileSys := ⟨true, true, 100⟩

/-- A filesystem view of a missing audio file. -/
def fsMissing : FileSys := ⟨false, false, 0⟩

/-- A filesystem view of an existing but empty, unreadable file. -/
def fsEmptyFile : FileSys := ⟨true, false, 0⟩

/-- A concrete `info` object: language `en`, probability 1, duration 1 s. -/
def info0 : TransInfo := ⟨"en".toList, 1, 1⟩

/-! ## Helper lemmas -/

theorem loadSingle_eq (env : Env) (d : Device) :
    loadSingle env d =
      ([⟨d, computeTypeFor d, env.constructOk d⟩],
        if env.constructOk d then .ok d else .error ()) := by
  cases h : env.constructOk d <;> simp [loadSingle, h]

theorem loadFrom_trail_ne_nil (env : Env) (d : Device) : (loadFrom env d).1 ≠ [] := by
  cases d <;> cases h : env.constructOk .cuda <;>
    cases h2 : env.constructOk .cpu <;> simp [loadFrom, loadSingle, h, h2]

theorem loadFrom_compute (env : Env) (d : Device) :
    ∀ a ∈ (loadFrom env d).1, a.compute = computeTypeFor a.device := by
  cases d <;> cases h : env.constructOk .cuda <;>
    cases h2 : env.constructOk .cpu <;>
      simp [loadFrom, loadSingle, h, h2, computeTypeFor]

theorem tryConfigs_compute (env : Env) (order : List Device) :
    ∀ a ∈ (tryConfigs env order).1, a.compute = computeTypeFor a.device := by
  induction order with
  | nil => simp [tryConfigs]
  | cons d rest ih =>
    cases h : env.constructOk d <;> simp [tryConfigs, h]
    exact ih

theorem tryConfigs_none_iff (env : Env) (order : List Device) :
    (tryConfigs env order).2 = none ↔
      ∀ a ∈ (tryConfigs env order).1, a.success = false := by
  induction order with
  | nil => simp [tryConfigs]
  | cons d rest ih =>
    cases h : env.constructOk d <;> simp [tryConfigs, h]
    exact ih

theorem tryConfigs_cons_true (env : Env) (d : Device) (rest : List Device)
    (h : env.constructOk d = true) :
    tryConfigs env (d :: rest) = ([⟨d, computeTypeFor d, true⟩], some d) := by
  simp only [tryConfigs, h, if_true]

theorem tryConfigs_cons_false (env : Env) (d : Device) (rest : List Device)
    (h : env.constructOk d = false) :
    tryConfigs env (d :: rest) =
      (⟨d, computeTypeFor d, false⟩ :: (tryConfigs env rest).1,
        (tryConfigs env rest).2) := by
  simp only [tryConfigs, h, Bool.false_eq_true, if_false]

theorem tryConfigs_length_le (env : Env) (order : List Device) :
    (tryConfigs env order).1.length ≤ order.length := by
  induction order with
  | nil => simp [tryConfigs]
  | cons d rest ih =>
    cases h : env.constructOk d
    · rw [tryConfigs_cons_false env d rest h]
      simp
      omega
    · rw [tryConfigs_cons_true env d rest h]
      simp

theorem tryConfigs_length_pos (env : Env) (d : Device) (rest : List Device) :
    1 ≤ (tryConfigs env (d :: rest)).1.length := by
  cases h : env.constructOk d <;> simp [tryConfigs, h]

theorem tryConfigs_length_eq_iff (env : Env) (order : List Device) :
    (tryConfigs env order).1.length = order.length ↔
      ∀ x ∈ order.dropLast, env.constructOk x = false := by
  induction order with
  | nil => simp [tryConfigs]
  | cons d rest ih =>
    cases rest with
    | nil => cases h : env.constructOk d <;> simp [tryConfigs, h]
    | cons d2 rest2 =>
      have hle := tryConfigs_length_le env (d2 :: rest2)
      cases h : env.constructOk d with
      | false =>
        rw [tryConfigs_cons_false env d _ h]
        simp only [List.length_cons, List.dropLast_cons₂, List.mem_cons]
        constructor
        · intro hl x hx
          rcases hx with rfl | hx
          · exact h
          · refine ih.mp ?_ x hx
            simp only [List.length_cons] at hl ⊢
            omega
        · intro hall
          have h2 := ih.mpr (fun x hx => hall x (Or.inr hx))
          simp only [List.length_cons] at h2 ⊢
          omega
      | true =>
        rw [tryConfigs_cons_true env d _ h]
        simp [List.dropLast_cons₂, h]

theorem pyStrip_append_space (s : List Char) : pyStrip (s ++ [' ']) = pyStrip s := by
  simp [pyStrip, List.dropWhile_cons]

theorem foldl_strip_space (segs : List Seg) (acc : List Char) :
    segs.foldl (fun a s => a ++ pyStrip s.text ++ [' ']) acc
      = acc ++ ((segs.map fun s => pyStrip s.text ++ [' '])).flatten := by
  induction segs generalizing acc with
  | nil => simp
  | cons s rest ih =>
    rw [List.foldl_cons, ih]
    simp [List.append_assoc]

theorem flatten_space_join (t : List Char) (ts : List (List Char)) :
    ((t :: ts).map fun x => x ++ [' ']).flatten = joinSpaces (t :: ts) ++ [' '] := by
  induction ts generalizing t with
  | nil => simp [joinSpaces]
  | cons u us ih =>
    simp only [List.map_cons, List.flatten_cons] at ih ⊢
    rw [ih u]
    simp [joinSpaces]

/-! ## Claim theorems -/

/-- C5 (confirmed). The precision/compute mode is a fixed mapping from the
device class — cuda always gets float16, cpu always gets int8: the mapping
table itself says so; every attempt recorded by the `test_faster_whisper`
loop and by `load_model`'s construction fallback carries exactly the mode the
table assigns to its device; and both call sites of the benchmark's
`test_model_performance` resolve to the same table. -/
theorem c5_fixed_compute_type_table :
    computeTypeFor .cuda = .float16 ∧ computeTypeFor .cpu = .int8 ∧
    (∀ env order, ∀ a ∈ (tryConfigs env order).1,
      a.compute = computeTypeFor a.device) ∧
    (∀ env d, ∀ a ∈ (loadFrom env d).1, a.compute = computeTypeFor a.device) ∧
    benchComputeType .cuda .float16 = computeTypeFor .cuda ∧
    benchComputeType .cpu .int8 = computeTypeFor .cpu := by
  refine ⟨rfl, rfl, ?_, ?_, rfl, rfl⟩
  · exact fun env order => tryConfigs_compute env order
  · exact fun env d => loadFrom_compute env d

/-- Witness for C5 at a concrete attempt of a concrete run. -/
theorem c5_witness :
    (⟨.cuda, .float16, false⟩ : DeviceAttempt) ∈
        (tryConfigs envAllFail [.cuda, .cpu]).1 ∧
    (⟨.cuda, .float16, false⟩ : DeviceAttempt).compute
        = computeTypeFor (⟨.cuda, .float16, false⟩ : DeviceAttempt).device :=
  ⟨by decide,
    c5_fixed_compute_type_table.2.2.1 envAllFail [.cuda, .cpu] _ (by decide)⟩

/-- C7 (corrected). The real-time factor is the guarded division: it equals
`audio_duration / processing_time` when the elapsed time is positive and `0`
otherwise, so it is a well-defined (finite) rational that is non-negative
whenever the measured duration and elapsed time are non-negative; the
recorded `processing_time` is exactly the measured elapsed time. The original
claim's stronger conjunct — `processing_time > 0` in every recorded result —
is not enforced by the code (see the counterexample). -/
theorem c7_real_time_factor_guarded (segs : List Seg) (info : TransInfo)
    (pt : ℚ) (hd : 0 ≤ info.duration) (hpt : 0 ≤ pt) :
    (transcribe_audio segs info pt).real_time_factor
        = (if 0 < pt then info.duration / pt else 0) ∧
    0 ≤ (transcribe_audio segs info pt).real_time_factor ∧
    (pt = 0 → (transcribe_audio segs info pt).real_time_factor = 0) ∧
    (transcribe_audio segs info pt).processing_time = pt ∧
    0 ≤ (transcribe_audio segs info pt).processing_time := by
  refine ⟨rfl, ?_, ?_, rfl, hpt⟩
  · show 0 ≤ realTimeFactor info.duration pt
    rw [realTimeFactor]
    split_ifs with h
    · exact div_nonneg hd (le_of_lt h)
    · exact le_refl 0
  · intro h0
    show realTimeFactor info.duration pt = 0
    rw [realTimeFactor, h0]
    simp

/-- Witness for C7 at a concrete run. -/
theorem c7_witness :
    (0 : ℚ) ≤ info0.duration ∧ (0 : ℚ) ≤ 2 ∧
    (transcribe_audio [] info0 2).real_time_factor
        = (if (0 : ℚ) < 2 then info0.duration / 2 else 0) :=
  ⟨by norm_num [info0], by norm_num,
    (c7_real_time_factor_guarded [] info0 2 (by norm_num [info0]) (by norm_num)).1⟩

/-- Counterexample to C7 as stated: a run in which everything succeeds but the
measured elapsed time is `0` still records a result with a device, so
`processing_time > 0` does not hold whenever a device is recorded; the
real-time factor falls back to `0` through the guard. -/
theorem c7_counterexample_zero_processing_time :
    (gpuTranscribeMain fsOk envAllOk .cpu [] info0 0).2
        = .ok (transcribe_audio [] info0 0, .cpu) ∧
    (transcribe_audio [] info0 0).processing_time = 0 ∧
    ¬ 0 < (transcribe_audio [] info0 0).processing_time := by
  refine ⟨rfl, rfl, ?_⟩
  show ¬ (0 : ℚ) < 0
  norm_num

/-- C8 (corrected). The aggregate `text` equals the segment texts, each
stripped of surrounding whitespace and joined in segment order by single
spaces, with the joined string then stripped once more (the code's final
`full_text.strip()`); the outer strip is observable exactly when the first or
last segment strips to the empty text. The `segments` sequence is the
emission-ordered map of the stripped records. -/
theorem c8_aggregate_text_outer_trimmed (segs : List Seg) (info : TransInfo)
    (pt : ℚ) :
    (transcribe_audio segs info pt).text
        = pyStrip (joinSpaces (segs.map fun s => pyStrip s.text)) ∧
    (transcribe_audio segs info pt).segments
        = segs.map fun s => ⟨s.start, s.stop, pyStrip s.text⟩ := by
  refine ⟨?_, rfl⟩
  show pyStrip (fullTextLoop segs) = _
  cases segs with
  | nil => rfl
  | cons s rest =>
    rw [fullTextLoop, foldl_strip_space, List.nil_append]
    have hmap : ((s :: rest).map fun x => pyStrip x.text ++ [' '])
        = ((s :: rest).map fun x => pyStrip x.text).map fun t => t ++ [' '] := by
      simp
    rw [hmap, List.map_cons, flatten_space_join, pyStrip_append_space]

/-- Counterexample to C8 as stated: with a first segment whose text strips to
empty, the plain single-space join keeps a leading space that the code's
final strip removes, so the aggregate text is not the plain join. -/
theorem c8_counterexample_leading_empty_segment :
    (transcribe_audio [⟨0, 1, []⟩, ⟨1, 2, ['a']⟩] info0 1).text
        ≠ joinSpaces ([⟨0, 1, []⟩, ⟨1, 2, ['a']⟩].map
            fun s => pyStrip (Seg.text s)) := by
  decide

/-- C1 (confirmed). When cuda construction fails, both fallback
implementations record the failed cuda attempt exactly once (no retry) and
proceed directly to a cpu construction attempt; and a construction failure on
the final cpu device is not recovered locally — `load_model` re-raises and
the validation loop falls through to its failure return. -/
theorem c1_cuda_failure_falls_back_cpu_not_recovered (env : Env) :
    (env.constructOk .cuda = false →
      (loadFrom env .cuda).1 = ⟨.cuda, .float16, false⟩ :: (loadSingle env .cpu).1 ∧
      (loadFrom env .cuda).2 = (loadSingle env .cpu).2 ∧
      (loadFrom env .cuda).1.countP (fun a => a.device == Device.cuda) = 1 ∧
      (loadSingle env .cpu).1 = [⟨.cpu, .int8, env.constructOk .cpu⟩] ∧
      (tryConfigs env [.cuda, .cpu]).1
          = ⟨.cuda, .float16, false⟩ :: (tryConfigs env [.cpu]).1 ∧
      (tryConfigs env [.cuda, .cpu]).1.countP (fun a => a.device == Device.cuda)
          = 1) ∧
    (env.constructOk .cpu = false →
      (loadSingle env .cpu).2 = .error () ∧ (tryConfigs env [.cpu]).2 = none) := by
  constructor
  · intro h
    cases h2 : env.constructOk .cpu <;>
      simp [loadFrom, loadSingle, tryConfigs, h, h2, computeTypeFor,
        List.countP_cons]
  · intro h2
    simp [loadSingle, tryConfigs, h2]

/-- Witness for C1 at a concrete all-fail environment. -/
theorem c1_witness :
    envAllFail.constructOk .cuda = false ∧
    (loadFrom envAllFail .cuda).1.countP (fun a => a.device == Device.cuda)
        = 1 ∧
    (loadSingle envAllFail .cpu).2 = .error () :=
  ⟨rfl,
    ((c1_cuda_failure_falls_back_cpu_not_recovered envAllFail).1 rfl).2.2.1,
    ((c1_cuda_failure_falls_back_cpu_not_recovered envAllFail).2 rfl).1⟩

/-- C2 (confirmed). The fallback loop returns its terminal failure
(`none`, the `return False, "none", 0` path) exactly when every recorded
attempt in the trail failed; in particular with the fixed order
`[cuda, cpu]` of `test_faster_whisper`, failure of both devices yields the
terminal failure rather than a device. -/
theorem c2_all_failed_iff_exhausted (env : Env) (order : List Device) :
    ((tryConfigs env order).2 = none ↔
      ∀ a ∈ (tryConfigs env order).1, a.success = false) ∧
    (env.constructOk .cuda = false → env.constructOk .cpu = false →
      (test_faster_whisper env).2 = none) := by
  refine ⟨tryConfigs_none_iff env order, fun h1 h2 => ?_⟩
  simp [test_faster_whisper, device_configs, tryConfigs, h1, h2]

/-- Witness for C2 at a concrete all-fail environment. -/
theorem c2_witness :
    envAllFail.constructOk .cuda = false ∧
    (test_faster_whisper envAllFail).2 = none :=
  ⟨rfl, (c2_all_failed_iff_exhausted envAllFail device_configs).2 rfl rfl⟩

/-- C6 (corrected). Over a non-empty device order of length `N`, the attempt
trail holds between 1 and `N` entries, and it has exactly `N` entries iff
every device *before the last* failed (so a full-length trail also arises
when the last device succeeds after all earlier ones failed — not only when
every device failed, as the claim stated); if the first device succeeds the
trail is exactly one success entry. -/
theorem c6_trail_length_bounds (env : Env) (d : Device) (rest : List Device) :
    1 ≤ (tryConfigs env (d :: rest)).1.length ∧
    (tryConfigs env (d :: rest)).1.length ≤ (d :: rest).length ∧
    ((tryConfigs env (d :: rest)).1.length = (d :: rest).length ↔
      ∀ x ∈ (d :: rest).dropLast, env.constructOk x = false) ∧
    (env.constructOk d = true →
      tryConfigs env (d :: rest) = ([⟨d, computeTypeFor d, true⟩], some d)) :=
  ⟨tryConfigs_length_pos env d rest, tryConfigs_length_le env (d :: rest),
    tryConfigs_length_eq_iff env (d :: rest),
    fun h => tryConfigs_cons_true env d rest h⟩

/-- Witness for C6 at concrete environments: trail bounds where the first
device fails, and the single-success trail where it succeeds. -/
theorem c6_witness :
    1 ≤ (tryConfigs envCudaFail [.cuda, .cpu]).1.length ∧
    (tryConfigs envCudaFail [.cuda, .cpu]).1.length ≤ 2 ∧
    envAllOk.constructOk .cuda = true ∧
    tryConfigs envAllOk [.cuda, .cpu] = ([⟨.cuda, .float16, true⟩], some .cuda) :=
  ⟨(c6_trail_length_bounds envCudaFail .cuda [.cpu]).1,
    (c6_trail_length_bounds envCudaFail .cuda [.cpu]).2.1, rfl,
    (c6_trail_length_bounds envAllOk .cuda [.cpu]).2.2.2 rfl⟩

/-- Counterexample to C6 as stated: with cuda failing and cpu succeeding, the
trail has full length 2 = N although not every device failed — its second
entry is a success. So "the trail length equals N only if every device
failed" is false on the code. -/
theorem c6_counterexample_full_length_with_success :
    (tryConfigs envCudaFail [.cuda, .cpu]).1.length = 2 ∧
    ¬ ∀ a ∈ (tryConfigs envCudaFail [.cuda, .cpu]).1, a.success = false := by
  decide

/-- C3 (corrected). The run fails immediately with the input-not-found error
— before any engine construction, with an empty attempt trail — if and only
if the path does not *exist*; existence is the only property the code checks
(`os.path.exists`). Readability and non-zero size are not verified, so an
existing but empty or unreadable file proceeds to engine construction (see
the counterexample). -/
theorem c3_existence_only_input_check (fs : FileSys) (env : Env)
    (req : ReqDevice) (segs : List Seg) (info : TransInfo) (pt : ℚ) :
    (fs.pathExists = false →
      gpuTranscribeMain fs env req segs info pt = ([], .error .inputNotFound)) ∧
    ((gpuTranscribeMain fs env req segs info pt).2 = .error .inputNotFound ↔
      fs.pathExists = false) ∧
    ((gpuTranscribeMain fs env req segs info pt).1 = [] ↔
      fs.pathExists = false) ∧
    ((transcribe_audio_simple fs
        ⟨true, true, [], true, [], []⟩ = .error ()) ↔ fs.pathExists = false) := by
  cases h : fs.pathExists with
  | false =>
    refine ⟨fun _ => ?_, ?_, ?_, ?_⟩ <;>
      simp [gpuTranscribeMain, transcribe_audio_simple, h]
  | true =>
    refine ⟨fun hf => by simp at hf, ?_, ?_, ?_⟩
    · rw [gpuTranscribeMain]
      rcases hl : load_model env req with ⟨trail, res⟩
      cases res with
      | error e => simp [h]
      | ok d => cases ht : env.transcribeOk d <;> simp [h, ht]
    · rw [gpuTranscribeMain]
      rcases hl : load_model env req with ⟨trail, res⟩
      have hne : trail ≠ [] := by
        have h3 := loadFrom_trail_ne_nil env (actualDevice env req)
        rw [load_model] at hl
        rw [hl] at h3
        simpa using h3
      cases res with
      | error e => simp [h, hne]
      | ok d => cases ht : env.transcribeOk d <;> simp [h, ht, hne]
    · simp [transcribe_audio_simple, h]

/-- Witness for C3 at a concrete missing file. -/
theorem c3_witness :
    fsMissing.pathExists = false ∧
    gpuTranscribeMain fsMissing envAllOk .auto [] info0 1
        = ([], .error .inputNotFound) :=
  ⟨rfl, (c3_existence_only_input_check fsMissing envAllOk .auto [] info0 1).1 rfl⟩

/-- Counterexample to C3 as stated: an existing file of zero size that is not
readable does not fail with input-not-found — the run proceeds, an engine
construction is attempted (non-empty trail), and it can succeed. -/
theorem c3_counterexample_empty_file_proceeds :
    fsEmptyFile.pathExists = true ∧ fsEmptyFile.size = 0 ∧
    fsEmptyFile.readable = false ∧
    (gpuTranscribeMain fsEmptyFile envAllOk .auto [] info0 1).2
        ≠ .error .inputNotFound ∧
    (gpuTranscribeMain fsEmptyFile envAllOk .auto [] info0 1).1
        = [⟨.cuda, .float16, true⟩] := by
  refine ⟨rfl, rfl, rfl, ?_, rfl⟩
  intro hcontra
  simp [gpuTranscribeMain, load_model, actualDevice, loadFrom, loadSingle,
    fsEmptyFile, envAllOk, computeTypeFor] at hcontra

/-- C4 (corrected). Only the incremental GPU tester treats a transcription
failure like a construction failure: when the cuda attempt fails at either
stage, its phase-2 step runs the cpu fallback attempt. In the main
`gpu_transcribe` pipeline, a transcription failure on the successfully
constructed device propagates out and aborts the run with the attempt trail
unchanged — no next device is tried there (see the counterexample). -/
theorem c4_fallback_behavior_by_script (fs : FileSys) (env : Env)
    (req : ReqDevice) (segs : List Seg) (info : TransInfo) (pt : ℚ)
    (trail : List DeviceAttempt) (d : Device)
    (hfs : fs.pathExists = true)
    (hload : load_model env req = (trail, .ok d))
    (htr : env.transcribeOk d = false) :
    gpuTranscribeMain fs env req segs info pt = (trail, .error .transcribeFailed) ∧
    (env.transcribeOk .cuda = false →
      (phase2Step fs env).2 = some (test_single_file fs env .cpu)) := by
  constructor
  · rw [gpuTranscribeMain, hload]
    simp [hfs, htr]
  · intro hcuda
    rw [phase2Step]
    cases hc : env.constructOk .cuda <;>
      simp [test_single_file, hfs, hc, hcuda]

/-- Witness for C4 at a concrete run where cuda constructs but fails to
transcribe. -/
theorem c4_witness :
    fsOk.pathExists = true ∧
    load_model envCudaTransFail .auto = ([⟨.cuda, .float16, true⟩], .ok .cuda) ∧
    envCudaTransFail.transcribeOk .cuda = false ∧
    gpuTranscribeMain fsOk envCudaTransFail .auto [] info0 1
        = ([⟨.cuda, .float16, true⟩], .error .transcribeFailed) :=
  ⟨rfl, rfl, rfl,
    (c4_fallback_behavior_by_script fsOk envCudaTransFail .auto [] info0 1
      [⟨.cuda, .float16, true⟩] .cuda rfl rfl rfl).1⟩

/-- Counterexample to C4 as stated: in `gpu_transcribe`, with cuda
construction succeeding and the transcription call failing, the run ends in
an error whose trail holds only the successful cuda construction — the
attempt is not recorded as failed and no cpu attempt follows. -/
theorem c4_counterexample_transcribe_failure_aborts :
    gpuTranscribeMain fsOk envCudaTransFail .auto [] info0 1
        = ([⟨.cuda, .float16, true⟩], .error .transcribeFailed) ∧
    (∀ a ∈ (gpuTranscribeMain fsOk envCudaTransFail .auto [] info0 1).1,
      a.device ≠ Device.cpu ∧ a.success = true) := by
  refine ⟨rfl, ?_⟩
  decide

/-- C9 (confirmed). `load_model` with an explicit cuda request while GPU
detection reports no usable GPU resolves the device to cpu before any
construction: every recorded attempt is a cpu/int8 attempt (no cuda attempt
exists), and when cpu construction succeeds the result is a cpu-backed
engine with a single successful attempt — no failed cuda attempt recorded. -/
theorem c9_cuda_request_without_gpu_goes_cpu (env : Env)
    (hgpu : env.hasGpu = false) :
    load_model env .cuda = loadSingle env .cpu ∧
    (∀ a ∈ (load_model env .cuda).1, a.device = .cpu ∧ a.compute = .int8) ∧
    (env.constructOk .cpu = true →
      load_model env .cuda = ([⟨.cpu, .int8, true⟩], .ok .cpu)) := by
  have hact : actualDevice env .cuda = .cpu := by simp [actualDevice, hgpu]
  refine ⟨by rw [load_model, hact]; rfl, ?_, ?_⟩
  · rw [load_model, hact]
    cases h : env.constructOk .cpu <;>
      simp [loadFrom, loadSingle, h, computeTypeFor]
  · intro h
    rw [load_model, hact]
    simp [loadFrom, loadSingle, h, computeTypeFor]

/-- Witness for C9 at a concrete GPU-less environment. -/
theorem c9_witness :
    envNoGpu.hasGpu = false ∧ envNoGpu.constructOk .cpu = true ∧
    load_model envNoGpu .cuda = ([⟨.cpu, .int8, true⟩], .ok .cpu) :=
  ⟨rfl, rfl, (c9_cuda_request_without_gpu_goes_cpu envNoGpu rfl).2.2 rfl⟩

/-- C10 (confirmed). `transcribe_audio_simple` raises `FileNotFoundError`
exactly when the audio path does not exist; for every existing path it
returns a markdown document — a missing whisper import, a cache-scan
exception, or a model-loading/transcription failure all fall back to the
dummy transcription instead of propagating. -/
theorem c10_simple_transcription_total_fallback (fs : FileSys) (e : SimpleEnv) :
    ((transcribe_audio_simple fs e = .error ()) ↔ fs.pathExists = false) ∧
    (fs.pathExists = true → ∃ r, transcribe_audio_simple fs e = .ok r) ∧
    (fs.pathExists = true →
      e.whisperImportOk = false ∨ e.cacheScanOk = false ∨ e.modelRunOk = false →
      transcribe_audio_simple fs e = .ok .dummy) := by
  cases h : fs.pathExists with
  | false => simp [transcribe_audio_simple, h]
  | true =>
    refine ⟨?_, fun _ => ?_, fun _ hfail => ?_⟩
    · rw [transcribe_audio_simple]
      cases h1 : e.whisperImportOk <;> cases h2 : e.cacheScanOk <;>
        cases h3 : e.modelRunOk <;> simp [h, h1, h2, h3]
    · rw [transcribe_audio_simple]
      cases h1 : e.whisperImportOk <;> cases h2 : e.cacheScanOk <;>
        cases h3 : e.modelRunOk <;> simp [h, h1, h2, h3]
    · rw [transcribe_audio_simple]
      rcases hfail with h1 | h1 | h1 <;>
        cases h2 : e.whisperImportOk <;> cases h3 : e.cacheScanOk <;>
          simp_all [h]

/-- Witness for C10 at a concrete existing file with a failing model load. -/
theorem c10_witness :
    fsOk.pathExists = true ∧
    transcribe_audio_simple fsOk ⟨true, true, [], false, [], []⟩
        = .ok .dummy :=
  ⟨rfl,
    (c10_simple_transcription_total_fallback fsOk
      ⟨true, true, [], false, [], []⟩).2.2 rfl (Or.inr (Or.inr rfl))⟩

end Pdf2Md
